import Mathlib

set_option maxRecDepth 100000
set_option maxHeartbeats 2000000

/-!
Shallow embedding of the MoonLine application core (src/app.py, src/database.py):
the persistence layer (users, mood entries, chat messages, settings) as explicit
state passing over a `DB` record, the response-resolution pipeline
(`get_ai_response` with credential rotation and model trials, the remote
provider abstracted as an oracle argument), and the deterministic fallback
responder `get_simple_response`.  SQLite queries are modelled as pure list
operations; `CURRENT_TIMESTAMP` is an explicit `now : Nat` argument; Python
`str.lower` is modelled for the ASCII and Cyrillic ranges actually used.
-/

/-- Python `str.lower` on one character, for the character ranges the app uses:
ASCII A–Z and Cyrillic А–Я / Ё. -/
def pyLowerChar (c : Char) : Char :=
  if 65 ≤ c.toNat ∧ c.toNat ≤ 90 then Char.ofNat (c.toNat + 32)
  else if 0x410 ≤ c.toNat ∧ c.toNat ≤ 0x42F then Char.ofNat (c.toNat + 32)
  else if c.toNat = 0x401 then Char.ofNat 0x451
  else c

/-- Python `str.lower` (`message.lower()` in `get_simple_response`), mapping
`pyLowerChar` over the characters of the string. -/
def pyLower (s : String) : String := String.mk (s.data.map pyLowerChar)

/-- Python substring containment `needle in hay`, on character lists. -/
def isSub (needle : List Char) : List Char → Bool
  | [] => needle.isEmpty
  | c :: t => needle.isPrefixOf (c :: t) || isSub needle t

/-- Python `any(word in message_lower for word in words)`. -/
def hasAny (message_lower : String) (words : List String) : Bool :=
  words.any (fun w => isSub w.toList message_lower.toList)

def greetingWords : List String :=
  ["привет", "hi", "hello", "здравствуй", "здарова", "приветик", "хай", "хей"]
def nameWords : List String := ["меня зовут", "я ", "мое имя", "my name"]
def sadWords : List String :=
  ["плохо", "грустно", "sad", "депресс", "устал", "устала", "не очень", "хреново", "ужасно"]
def anxietyWords : List String :=
  ["тревог", "страх", "anxious", "боюсь", "волну", "паник", "нервнича"]
def stressWords : List String :=
  ["стресс", "stress", "нервы", "напряж", "давлен", "перегруз"]
def goodWords : List String :=
  ["хорошо", "отлично", "супер", "great", "happy", "прекрасно", "замечательно", "класс", "норм"]
def thanksWords : List String := ["спасибо", "thanks", "благодар", "спс"]
def whoWords : List String := ["кто ты", "что ты", "who are", "расскаж о себе"]
def sleepWords : List String :=
  ["не могу заснуть", "бессонниц", "не сплю", "sleep", "сон"]
def lonelyWords : List String :=
  ["одинок", "lonely", "никому не нужен", "один", "одна"]
def workWords : List String :=
  ["работ", "учёб", "учеб", "экзамен", "дедлайн", "deadline", "задан"]
def motivationWords : List String :=
  ["не хочу ничего", "нет сил", "мотивац", "лень", "апатия"]
def helpWords : List String := ["помог", "help", "что делать", "как быть", "посовет"]

def respGreeting : String :=
  "Привет! 🌙 Я Luna, твой AI-помощник. Рада познакомиться! Как ты себя чувствуешь сегодня?"
def respName : String := "Приятно познакомиться! 🌙 Как дела сегодня?"
def respSad : String :=
  "Мне жаль, что тебе сейчас тяжело 💜 Знай, что это нормально — иногда чувствовать себя не лучшим образом. Хочешь поговорить о том, что тебя беспокоит? Я здесь, чтобы выслушать."
def respAnxiety : String :=
  "Тревога — это сложное чувство, но ты не один 🌙 Попробуй технику дыхания: вдох 4 секунды, задержи на 7, выдох 8 секунд. Это помогает успокоить нервную систему. Хочешь, расскажу подробнее?"
def respStress : String :=
  "Стресс может быть очень изматывающим 💜 Давай попробуем найти то, что поможет тебе расслабиться. Когда ты последний раз делал что-то приятное только для себя?"
def respGood : String :=
  "Рада это слышать! 🌟 Это замечательно, что ты чувствуешь себя хорошо. Что помогло тебе сегодня поднять настроение?"
def respThanks : String :=
  "Всегда рада помочь! 🌙 Помни, я здесь для тебя в любое время. Не стесняйся писать."
def respWho : String :=
  "Я Luna — твой AI-компаньон по ментальному здоровью 🌙 Я здесь, чтобы выслушать тебя, поддержать и помочь найти внутреннее спокойствие. Ты можешь рассказать мне всё, что тебя беспокоит."
def respSleep : String :=
  "Проблемы со сном могут сильно влиять на самочувствие 🌙 Попробуй: за час до сна убери телефон, сделай комнату прохладной и тёмной, выпей тёплый чай. Если мысли не отпускают — запиши их в дневник."
def respLonely : String :=
  "Чувство одиночества может быть очень болезненным 💜 Но знай — ты не один. Я всегда здесь, чтобы поговорить. Иногда помогает связаться со старым другом или найти сообщество по интересам."
def respWork : String :=
  "Давление от работы или учёбы — это реально тяжело 📚 Попробуй разбить большие задачи на маленькие шаги. И не забывай делать перерывы — мозгу нужен отдых!"
def respMotivation : String :=
  "Потеря мотивации — сигнал, что тебе нужен отдых или перезагрузка 💜 Начни с чего-то маленького. Какое самое простое дело ты можешь сделать прямо сейчас?"
def respHelp : String :=
  "Я рада, что ты обратился за помощью 🌙 Расскажи подробнее, что тебя беспокоит? Вместе мы найдём способ справиться."
def respDefault : String :=
  "Спасибо, что делишься со мной 💜 Расскажи подробнее, я внимательно слушаю. Что ты сейчас чувствуешь?"

/-- `get_simple_response` (app.py 427–485): chain of keyword-substring rules over
the lower-cased message, first match wins, a fixed default when nothing matches.
In the source the self-introduction branch computes a `name` value from the
message but the returned f-string does not interpolate it, so the branch result
is the constant `respName`. -/
def get_simple_response (message : String) : String :=
  let message_lower := pyLower message
  if hasAny message_lower greetingWords then respGreeting
  else if hasAny message_lower nameWords then respName
  else if hasAny message_lower sadWords then respSad
  else if hasAny message_lower anxietyWords then respAnxiety
  else if hasAny message_lower stressWords then respStress
  else if hasAny message_lower goodWords then respGood
  else if hasAny message_lower thanksWords then respThanks
  else if hasAny message_lower whoWords then respWho
  else if hasAny message_lower sleepWords then respSleep
  else if hasAny message_lower lonelyWords then respLonely
  else if hasAny message_lower workWords then respWork
  else if hasAny message_lower motivationWords then respMotivation
  else if hasAny message_lower helpWords then respHelp
  else respDefault

/-- Row of the `users` table (database.py 20–29). -/
structure UserRow where
  id : Nat
  username : String
  password : String
  email : Option String
  avatar_color : String
deriving DecidableEq

/-- Row of the `mood_entries` table (database.py 32–42); `created_at` is the
`CURRENT_TIMESTAMP` value at insertion. -/
structure MoodRow where
  id : Nat
  user_id : Nat
  mood : Int
  note : Option String
  ai_insight : Option String
  created_at : Nat
deriving DecidableEq

/-- Row of the `chat_messages` table (database.py 45–54). -/
structure ChatRow where
  id : Nat
  user_id : Nat
  role : String
  content : String
  created_at : Nat
deriving DecidableEq

/-- Row of the `user_settings` table (database.py 57–65). -/
structure SettingsRow where
  user_id : Nat
  theme : String
  notifications : Int
deriving DecidableEq

/-- The SQLite database state: the four tables in rowid (insertion) order plus
the AUTOINCREMENT counters. -/
structure DB where
  users : List UserRow
  mood_entries : List MoodRow
  chat_messages : List ChatRow
  user_settings : List SettingsRow
  next_user_id : Nat
  next_mood_id : Nat
  next_chat_id : Nat
deriving DecidableEq

/-- `create_user` (database.py 73–95).  The UNIQUE constraint on `username`
raises `IntegrityError` when the name is taken, which the function turns into
`None`; the connection is closed without commit, so nothing is written.  The
password hasher (`generate_password_hash`) is an external capability passed as
the `hash` argument. -/
def create_user (hash : String → String) (db : DB) (username password : String)
    (email : Option String) : Option Nat × DB :=
  if db.users.any (fun u => u.username = username) then (none, db)
  else
    let user_id := db.next_user_id
    (some user_id,
      { db with
        users := db.users ++ [⟨user_id, username, hash password, email, "#64C4ED"⟩]
        user_settings := db.user_settings ++ [⟨user_id, "dark", 1⟩]
        next_user_id := user_id + 1 })

/-- `get_user_by_username` (database.py 97–104). -/
def get_user_by_username (db : DB) (username : String) : Option UserRow :=
  db.users.find? (fun u => u.username = username)

/-- `get_user_by_id` (database.py 106–113). -/
def get_user_by_id (db : DB) (user_id : Nat) : Option UserRow :=
  db.users.find? (fun u => u.id = user_id)

/-- A Python value as it can appear in `update_user` kwargs. -/
inductive PyVal
  | pyNone
  | pyStr (s : String)
  | pyInt (n : Int)
deriving DecidableEq

/-- Python truthiness for the values above. -/
def truthy : PyVal → Bool
  | .pyNone => false
  | .pyStr s => s ≠ ""
  | .pyInt n => n ≠ 0

/-- The text SQLite stores for a value bound into a TEXT column. -/
def pyValText : PyVal → String
  | .pyNone => "None"
  | .pyStr s => s
  | .pyInt n => toString n

def allowed_fields : List String := ["username", "email", "avatar_color", "password"]

/-- One `field = ?` assignment of the UPDATE built by `update_user`; password
values are rehashed before storage (database.py 126–127). -/
def applyField (hash : String → String) (u : UserRow) (p : String × PyVal) : UserRow :=
  let value := if p.1 = "password" then hash (pyValText p.2) else pyValText p.2
  if p.1 = "username" then { u with username := value }
  else if p.1 = "email" then { u with email := some value }
  else if p.1 = "avatar_color" then { u with avatar_color := value }
  else { u with password := value }

/-- `update_user` (database.py 115–139): keeps only kwargs whose field is in
the whitelist and whose value is truthy; if none survive, no UPDATE statement
is executed at all (the returned Bool records whether a write happened). -/
def update_user (hash : String → String) (db : DB) (user_id : Nat)
    (kwargs : List (String × PyVal)) : DB × Bool :=
  let updates := kwargs.filter (fun p => allowed_fields.contains p.1 && truthy p.2)
  if updates.isEmpty then (db, false)
  else
    ({ db with users := db.users.map (fun u =>
        if u.id = user_id then updates.foldl (applyField hash) u else u) }, true)

/-- `add_mood_entry` (database.py 143–154). -/
def add_mood_entry (db : DB) (user_id : Nat) (mood : Int)
    (note ai_insight : Option String) (now : Nat) : Nat × DB :=
  let entry_id := db.next_mood_id
  (entry_id,
    { db with
      mood_entries := db.mood_entries ++ [⟨entry_id, user_id, mood, note, ai_insight, now⟩]
      next_mood_id := entry_id + 1 })

/-- The mood column values of one user's `mood_entries` rows, in rowid order. -/
def moodsOf (db : DB) (user_id : Nat) : List Int :=
  (db.mood_entries.filter (fun e => e.user_id = user_id)).map (fun e => e.mood)

/-- Round a rational to the nearest integer, ties to even — the rounding used
by Python `round`. -/
def roundHalfEven (q : ℚ) : ℤ :=
  let f := ⌊q⌋
  let frac := q - f
  if frac < 1/2 then f
  else if 1/2 < frac then f + 1
  else if Even f then f else f + 1

/-- Python `round(x, 2)`. -/
def pyRound2 (q : ℚ) : ℚ := (roundHalfEven (q * 100) : ℚ) / 100

/-- The `AVG(mood)` aggregate of `get_mood_stats`: SQL AVG is NULL on an empty
set, else the sum divided by the count. -/
def avg_mood (db : DB) (user_id : Nat) : Option ℚ :=
  let moods := moodsOf db user_id
  if moods.isEmpty then none
  else some ((List.map (fun m : ℤ => (m : ℚ)) moods).sum / moods.length)

/-- The statistics record returned by `get_mood_stats`; `distribution` is the
GROUP BY mood occurrence count.  The trailing-7-day `weekly` aggregation of
the source depends on calendar-date arithmetic and is not modelled. -/
structure MoodStats where
  average : ℚ
  total : Nat
  distribution : Int → Nat

/-- `get_mood_stats` (database.py 168–204): `round(avg, 2) if avg else 0` maps
a NULL or zero average to 0, anything else through Python rounding. -/
def get_mood_stats (db : DB) (user_id : Nat) : MoodStats :=
  { average :=
      match avg_mood db user_id with
      | none => 0
      | some a => if a = 0 then 0 else pyRound2 a
    total := (db.mood_entries.filter (fun e => e.user_id = user_id)).length
    distribution := fun m => (moodsOf db user_id).count m }

/-- `add_chat_message` (database.py 208–217). -/
def add_chat_message (db : DB) (user_id : Nat) (role content : String) (now : Nat) : DB :=
  { db with
    chat_messages := db.chat_messages ++ [⟨db.next_chat_id, user_id, role, content, now⟩]
    next_chat_id := db.next_chat_id + 1 }

/-- One user's `chat_messages` rows in rowid (insertion) order. -/
def userMessages (db : DB) (user_id : Nat) : List ChatRow :=
  db.chat_messages.filter (fun m => m.user_id = user_id)

/-- ORDER BY created_at ASC. -/
def chatAsc (a b : ChatRow) : Prop := a.created_at ≤ b.created_at

/-- ORDER BY created_at DESC. -/
def chatDesc (a b : ChatRow) : Prop := b.created_at ≤ a.created_at

instance : DecidableRel chatAsc := fun a b => Nat.decLe a.created_at b.created_at
instance : DecidableRel chatDesc := fun a b => Nat.decLe b.created_at a.created_at
instance : IsTotal ChatRow chatAsc := ⟨fun a b => Nat.le_total a.created_at b.created_at⟩
instance : IsTrans ChatRow chatAsc := ⟨fun _ _ _ h1 h2 => Nat.le_trans h1 h2⟩
instance : IsTotal ChatRow chatDesc := ⟨fun a b => Nat.le_total b.created_at a.created_at⟩
instance : IsTrans ChatRow chatDesc := ⟨fun _ _ _ h1 h2 => Nat.le_trans h2 h1⟩

/-- `get_chat_history` (database.py 219–229): the user's rows ordered by
`created_at` ascending, limited. -/
def get_chat_history (db : DB) (user_id : Nat) (limit : Nat) : List ChatRow :=
  ((userMessages db user_id).insertionSort chatAsc).take limit

/-- The role/content projection used by `get_recent_messages`. -/
structure RoleContent where
  role : String
  content : String
deriving DecidableEq

def toRoleContent (m : ChatRow) : RoleContent := ⟨m.role, m.content⟩

/-- `get_recent_messages` (database.py 239–249): newest-first retrieval with a
limit, then `reversed(...)` back to oldest-first, projected to role/content. -/
def get_recent_messages (db : DB) (user_id : Nat) (limit : Nat) : List RoleContent :=
  ((((userMessages db user_id).insertionSort chatDesc).take limit).reverse).map toRoleContent

/-- `clear_chat_history` (database.py 231–237). -/
def clear_chat_history (db : DB) (user_id : Nat) : DB :=
  { db with chat_messages := db.chat_messages.filter (fun m => m.user_id ≠ user_id) }

/-- The Luna persona preamble (app.py 41–68). -/
def LUNA_SYSTEM_PROMPT : String := "Ты Luna (Луна) — теплый, заботливый AI-ассистент для поддержки ментального здоровья в приложении MoonLine.

🌙 КТО ТЫ:
- Ты Luna - AI-помощник по ментальному здоровью
- Ты как добрый старший друг, который всегда выслушает и поддержит
- Ты понимающая, эмпатичная и никогда не осуждаешь
- Ты помогаешь справляться со стрессом, тревожностью и сложными эмоциями

📋 ВАЖНЫЕ ПРАВИЛА:
1. ВСЕГДА отвечай ПОЛНЫМИ предложениями, не обрывай мысль на середине
2. Отвечай на том же языке, на котором пишет пользователь (русский/английский)
3. Внимательно читай ВЕСЬ контекст разговора перед ответом
4. Если пользователь представился - запомни его имя и используй в ответах
5. Используй эмодзи умеренно (1-2 на сообщение) для тёплой атмосферы
6. Не давай медицинских диагнозов, при серьёзных проблемах - посоветуй обратиться к специалисту
7. Будь позитивной, но реалистичной

💬 СТИЛЬ ОБЩЕНИЯ:
- Дружелюбный и неформальный
- Поддерживающий, но не навязчивый
- Используй технику активного слушания (отражай чувства собеседника)
- Давай конкретные, практичные советы когда уместно
- Задавай уточняющие вопросы чтобы лучше понять собеседника

🎯 ДЛИНА ОТВЕТОВ:
- На простые вопросы: 2-3 предложения
- На вопросы о помощи: 3-5 предложений с конкретным советом
- При глубоких разговорах: столько, сколько нужно для полного ответа"

/-- The role label used when rendering history into the prompt (app.py 87). -/
def roleLabel (role : String) : String := if role = "user" then "Пользователь" else "Luna"

/-- The `context_parts` prompt assembly of `get_ai_response` (app.py 82–96). -/
def buildPrompt (recent : List RoleContent) (message : String) : String :=
  String.intercalate "\n"
    ([LUNA_SYSTEM_PROMPT, "\n--- ИСТОРИЯ РАЗГОВОРА ---"]
      ++ recent.map (fun m => roleLabel m.role ++ ": " ++ m.content)
      ++ ["\n--- НОВОЕ СООБЩЕНИЕ ---", "Пользователь: " ++ message,
          "\n--- ТВОЙ ОТВЕТ (Luna) ---", "Ответь полностью, не обрывая мысль:"])

/-- The whitespace characters removed by Python `str.strip`. -/
def isSpaceChar (c : Char) : Bool :=
  c = ' ' || c = '\t' || c = '\n' || c = '\r' || c = '\x0b' || c = '\x0c'

/-- Python `str.strip()`. -/
def pyStrip (s : String) : String :=
  String.mk (((s.data.dropWhile isSpaceChar).reverse.dropWhile isSpaceChar).reverse)

/-- Rotation of `current_api_key_index` (app.py 103 and 148): advance one slot,
wrapping modulo the credential list length. -/
def advance_key_index (keys : List String) (i : Nat) : Nat := (i + 1) % keys.length

def models_to_try : List String :=
  ["models/gemini-2.5-flash-lite", "models/gemini-2.5-flash-preview-09-2025",
   "models/gemini-flash-lite-latest"]

/-- The remote generation capability: for an api key, model name and prompt it
returns `some text` when `generate_content` yields a truthy response whose
`.text` is `text`, and `none` when the call raises or the response is falsy. -/
def GenOracle : Type := String → String → String → Option String

/-- The inner model loop of `get_ai_response` (app.py 116–140): try each model
name in order, accept the first truthy response with truthy text, swallow
every per-model error. -/
def tryModels (oracle : GenOracle) (api_key prompt : String) : List String → Option String
  | [] => none
  | model_name :: rest =>
    match oracle api_key model_name prompt with
    | some text => if text ≠ "" then some text else tryModels oracle api_key prompt rest
    | none => tryModels oracle api_key prompt rest

/-- The outer `for attempt in range(2)` loop of `get_ai_response` (app.py
99–148), with the loop bound as fuel and the rotation index threaded through:
a blank key advances the cursor, a `genai.configure` error (the only error the
outer handler can see, modelled by `cfgRaises`) advances the cursor, while a
key whose models all fail without raising leaves the cursor where it is. -/
def tryAttempts (keys : List String) (cfgRaises : String → Bool) (oracle : GenOracle)
    (prompt : String) : Nat → Nat → Option String × Nat
  | 0, idx => (none, idx)
  | Nat.succ n, idx =>
    let api_key := keys.getD idx ""
    if api_key = "" then
      tryAttempts keys cfgRaises oracle prompt n (advance_key_index keys idx)
    else if cfgRaises api_key then
      tryAttempts keys cfgRaises oracle prompt n (advance_key_index keys idx)
    else
      match tryModels oracle api_key prompt models_to_try with
      | some text => (some text, idx)
      | none => tryAttempts keys cfgRaises oracle prompt n idx

/-- The process-wide generation configuration: the `AI_AVAILABLE` import flag,
the `API_KEYS` list, the external provider behaviour and the current rotation
index. -/
structure AIConfig where
  aiAvailable : Bool
  keys : List String
  cfgRaises : String → Bool
  oracle : GenOracle
  idx : Nat

/-- The persistence effects a resolver call can perform, in order. -/
inductive Effect
  | readRecent (user_id limit : Nat)
  | addChat (user_id : Nat) (role content : String)
deriving DecidableEq

/-- The outcome of `get_ai_response`: returned text, new rotation index, new
database state and the persistence effects performed. -/
structure ResolveResult where
  text : String
  idx : Nat
  db : DB
  trace : List Effect
deriving DecidableEq

def AI_UNAVAILABLE_MSG : String := "AI временно недоступен. Попробуй позже 🌙"

/-- `get_ai_response` (app.py 71–151).  When `AI_AVAILABLE` is false it returns
a fixed unavailability string at once; otherwise it reads the recent chat
context (app.py 79), builds the prompt, runs the credential/model attempt
loop, persists the exchange only for `context_type == "chat"` on success, and
falls back to `get_simple_response` when both attempts fail. -/
def get_ai_response (cfg : AIConfig) (db : DB) (message : String) (user_id : Nat)
    (context_type : String) (now : Nat) : ResolveResult :=
  if !cfg.aiAvailable then
    ⟨AI_UNAVAILABLE_MSG, cfg.idx, db, []⟩
  else
    let recent := get_recent_messages db user_id 15
    let full_prompt := buildPrompt recent message
    match tryAttempts cfg.keys cfg.cfgRaises cfg.oracle full_prompt 2 cfg.idx with
    | (some text, idx) =>
      let ai_response := pyStrip text
      if context_type = "chat" then
        ⟨ai_response, idx,
          add_chat_message (add_chat_message db user_id "user" message now)
            user_id "assistant" ai_response now,
          [.readRecent user_id 15, .addChat user_id "user" message,
           .addChat user_id "assistant" ai_response]⟩
      else
        ⟨ai_response, idx, db, [.readRecent user_id 15]⟩
    | (none, idx) => ⟨get_simple_response message, idx, db, [.readRecent user_id 15]⟩

/-- The `mood_labels` dict lookup of `analyze_mood_with_ai` (app.py 156). -/
def mood_labels (v : Int) : Option String :=
  if v = 1 then some "очень плохо" else if v = 2 then some "плохо"
  else if v = 3 then some "нормально" else if v = 4 then some "хорошо"
  else if v = 5 then some "отлично" else none

/-- The mood-insight prompt template (app.py 158–162). -/
def moodPrompt (mood_value : Int) (note : String) : String :=
  "Пользователь записал в дневник настроения:\nНастроение: " ++ toString mood_value
    ++ "/5 (" ++ (mood_labels mood_value).getD "не указано" ++ ")\nЗаметка: "
    ++ (if note ≠ "" then note else "без заметки")
    ++ "\n\nДай краткий (2-3 предложения) тёплый, поддерживающий комментарий. Если уместно — маленький практичный совет."

/-- `analyze_mood_with_ai` (app.py 154–164): the same resolver with the mood
prompt and `context_type = "mood"`. -/
def analyze_mood_with_ai (cfg : AIConfig) (db : DB) (mood_value : Int) (note : String)
    (user_id : Nat) (now : Nat) : ResolveResult :=
  get_ai_response cfg db (moodPrompt mood_value note) user_id "mood" now

/-- The JSON shape returned by the `/api/mood` handler. -/
structure MoodApiResponse where
  success : Bool
  entry_id : Option Nat
  ai_insight : Option String
  message : Option String
deriving DecidableEq

def MOOD_RANGE_MSG : String := "Выбери настроение от 1 до 5"

/-- `api_mood` (app.py 507–533): `if not mood_value or mood_value not in
range(1, 6)` rejects a missing value, a falsy 0, and anything outside 1..5;
otherwise it obtains the AI insight and inserts the entry. -/
def api_mood (cfg : AIConfig) (db : DB) (mood_value : Option Int) (note : String)
    (user_id : Nat) (now : Nat) : MoodApiResponse × DB :=
  match mood_value with
  | none => (⟨false, none, none, some MOOD_RANGE_MSG⟩, db)
  | some v =>
    if v = 0 ∨ v < 1 ∨ 5 < v then (⟨false, none, none, some MOOD_RANGE_MSG⟩, db)
    else
      let r := analyze_mood_with_ai cfg db v note user_id now
      let inserted := add_mood_entry r.db user_id v (some note) (some r.text) now
      (⟨true, some inserted.1, some r.text, none⟩, inserted.2)

/-- The fresh greeting inserted by `api_chat_clear` (app.py 502–503). -/
def clearGreeting (username : String) : String :=
  "Чат очищен! 🌙 Как я могу помочь тебе, " ++ username ++ "?"

/-- `api_chat_clear` (app.py 496–504): look up the user, delete all their chat
rows, insert one fresh assistant greeting.  `none` models the request failing
when the session user does not exist (the handler would crash reading
`user["username"]`). -/
def api_chat_clear (db : DB) (user_id : Nat) (now : Nat) : Option DB :=
  match get_user_by_id db user_id with
  | none => none
  | some user =>
    some (add_chat_message (clear_chat_history db user_id) user_id "assistant"
      (clearGreeting user.username) now)

/-- A stand-in for the opaque password hasher, used in concrete instances. -/
def hashDemo (s : String) : String := "pbkdf2:" ++ s

/-- A provider oracle on which every generation attempt fails. -/
def oracleNone : GenOracle := fun _ _ _ => none

/-- Configuration with the generation capability disabled (`AI_AVAILABLE` false). -/
def cfgOff : AIConfig := ⟨false, ["", ""], fun _ => false, oracleNone, 0⟩

/-- Configuration with the capability enabled but no usable credential. -/
def cfgOn : AIConfig := ⟨true, ["", ""], fun _ => false, oracleNone, 0⟩

def dbEmpty : DB := ⟨[], [], [], [], 1, 1, 1⟩

def annRow : UserRow := ⟨1, "Ann", "pbkdf2:1234", none, "#64C4ED"⟩

def dbAnn : DB := ⟨[annRow], [], [], [], 2, 1, 1⟩

/-- A database with chat rows for two users, strictly increasing timestamps. -/
def dbChat : DB :=
  ⟨[annRow], [],
   [⟨1, 1, "assistant", "welcome", 10⟩, ⟨2, 2, "user", "other", 11⟩, ⟨3, 1, "user", "hi", 12⟩],
   [], 2, 1, 4⟩

/-- A database where user 1 has two mood entries with moods 4 and 5. -/
def dbMoods : DB :=
  ⟨[annRow], [⟨1, 1, 4, none, none, 10⟩, ⟨2, 1, 5, none, none, 11⟩], [], [], 2, 3, 1⟩

def demoKeys : List String := ["key1", "key2"]

/-- Frame of the resolver in mood context: a `context_type = "mood"` call never
changes the database, and its effect trace is the single recent-context read
whenever the capability is available (and empty otherwise). -/
theorem get_ai_response_mood_frame (cfg : AIConfig) (db : DB) (message : String)
    (user_id now : Nat) :
    (get_ai_response cfg db message user_id "mood" now).db = db
    ∧ ((get_ai_response cfg db message user_id "mood" now).trace = []
        ∨ (get_ai_response cfg db message user_id "mood" now).trace
            = [Effect.readRecent user_id 15])
    ∧ (cfg.aiAvailable = true →
        (get_ai_response cfg db message user_id "mood" now).trace
          = [Effect.readRecent user_id 15]) := by
  unfold get_ai_response
  cases hA : cfg.aiAvailable
  · simp [hA]
  · rcases htry : tryAttempts cfg.keys cfg.cfgRaises cfg.oracle
      (buildPrompt (get_recent_messages db user_id 15) message) 2 cfg.idx with ⟨o, i⟩
    cases o <;> simp [hA, htry]

/-- C1 counterexample: with the capability disabled, the resolver's output on
"привет" is the fixed unavailability message, not the Fallback Responder's
greeting reply. -/
theorem C1_ai_disabled_counterexample :
    (get_ai_response cfgOff dbEmpty "привет" 1 "chat" 0).text
      ≠ get_simple_response "привет" := by decide

/-- C1 (amended): if the remote generation capability is disabled, then for
every message, user id, context type and database state, `get_ai_response`
returns the fixed string `AI_UNAVAILABLE_MSG` without touching the database,
without any effect, and without advancing the rotation index. -/
theorem C1_ai_disabled (cfg : AIConfig) (db : DB) (message : String)
    (user_id now : Nat) (context_type : String) (h : cfg.aiAvailable = false) :
    get_ai_response cfg db message user_id context_type now
      = ⟨AI_UNAVAILABLE_MSG, cfg.idx, db, []⟩ := by
  unfold get_ai_response
  simp [h]

/-- C1 witness: the amended statement evaluated at a concrete disabled
configuration. -/
theorem C1_ai_disabled_witness :
    get_ai_response cfgOff dbEmpty "hi" 2 "chat" 0
      = ⟨AI_UNAVAILABLE_MSG, 0, dbEmpty, []⟩ :=
  C1_ai_disabled cfgOff dbEmpty "hi" 2 0 "chat" rfl

/-- C2 counterexample: a mood-insight request with the capability available
does read the user's chat messages — its trace contains the
`get_recent_messages` read. -/
theorem C2_mood_reads_counterexample :
    Effect.readRecent 1 15 ∈ (analyze_mood_with_ai cfgOn dbEmpty 3 "" 1 0).trace := by
  decide

/-- C2 (amended): a mood-insight request never persists chat history — the
chat_messages table is unchanged, no addChat effect occurs, and the insight
reaches the database only as a field of the MoodEntry inserted by `api_mood` —
but whenever the capability is available it does load the user's recent chat
messages as prompt context. -/
theorem C2_mood_insight_effects (cfg : AIConfig) (db : DB) (mood_value : Int)
    (note : String) (user_id now : Nat) :
    (analyze_mood_with_ai cfg db mood_value note user_id now).db = db
    ∧ (∀ u role content,
        Effect.addChat u role content
          ∉ (analyze_mood_with_ai cfg db mood_value note user_id now).trace)
    ∧ (cfg.aiAvailable = true →
        Effect.readRecent user_id 15
          ∈ (analyze_mood_with_ai cfg db mood_value note user_id now).trace)
    ∧ (api_mood cfg db (some mood_value) note user_id now).2.chat_messages
        = db.chat_messages := by
  obtain ⟨hdb, htr, hav⟩ :=
    get_ai_response_mood_frame cfg db (moodPrompt mood_value note) user_id now
  refine ⟨hdb, ?_, ?_, ?_⟩
  · intro u role content
    unfold analyze_mood_with_ai
    rcases htr with h | h <;> simp [h]
  · intro h
    unfold analyze_mood_with_ai
    rw [hav h]
    exact List.mem_singleton.mpr rfl
  · unfold api_mood
    by_cases hc : mood_value = 0 ∨ mood_value < 1 ∨ 5 < mood_value
    · simp [hc]
    · simp only [hc, if_false]
      unfold analyze_mood_with_ai
      simp [add_mood_entry, hdb]

/-- C2 witness: the amended statement at a concrete enabled configuration. -/
theorem C2_mood_insight_effects_witness :
    (analyze_mood_with_ai cfgOn dbAnn 2 "note" 1 3).db = dbAnn
    ∧ Effect.readRecent 1 15 ∈ (analyze_mood_with_ai cfgOn dbAnn 2 "note" 1 3).trace := by
  have h := C2_mood_insight_effects cfgOn dbAnn 2 "note" 1 3
  exact ⟨h.1, h.2.2.1 rfl⟩

/-- Advancing the rotation cursor `k` times from a valid index lands on
`(i + k) mod length`. -/
theorem advance_key_index_iterate (keys : List String) (k i : Nat) (h : i < keys.length) :
    (advance_key_index keys)^[k] i = (i + k) % keys.length := by
  induction k with
  | zero => simp [Nat.mod_eq_of_lt h]
  | succ n ih =>
    rw [Function.iterate_succ_apply', ih]
    unfold advance_key_index
    rw [Nat.mod_add_mod]
    rfl

/-- C7: advancing the rotation cursor as many times as there are credentials
returns it to its starting position, and every advance lands on a valid index
(the successor reduced modulo the list length). -/
theorem C7_rotation (keys : List String) (i : Nat) (h0 : keys ≠ []) (h : i < keys.length) :
    (advance_key_index keys)^[keys.length] i = i
    ∧ ∀ j, advance_key_index keys j < keys.length := by
  have hlen : 0 < keys.length := List.length_pos.mpr h0
  constructor
  · rw [advance_key_index_iterate keys keys.length i h, Nat.add_mod_right,
      Nat.mod_eq_of_lt h]
  · intro j
    exact Nat.mod_lt _ hlen

/-- C7 witness: with the two-slot key list, two advances return the cursor to
slot 0, and an advance from any position is a valid index. -/
theorem C7_rotation_witness :
    (advance_key_index demoKeys)^[2] 0 = 0 ∧ advance_key_index demoKeys 5 < 2 := by
  have h := C7_rotation demoKeys 0 (by decide) (by decide)
  exact ⟨h.1, h.2 5⟩

/-- C9: the Fallback Responder is total (never returns the empty string, for
every input), any input containing a greeting keyword gets the
greeting-category text (the greeting rule is evaluated first), "привет" gets
the greeting text and the unmatched "xyzzyunmatched" gets the generic
default. -/
theorem C9_fallback_total :
    (∀ s : String, get_simple_response s ≠ "")
    ∧ (∀ s : String, hasAny (pyLower s) greetingWords = true →
        get_simple_response s = respGreeting)
    ∧ get_simple_response "привет" = respGreeting
    ∧ get_simple_response "xyzzyunmatched" = respDefault := by
  refine ⟨?_, ?_, by decide, by decide⟩
  · intro s
    simp only [get_simple_response]
    by_cases h1 : hasAny (pyLower s) greetingWords = true
    · rw [if_pos h1]; decide
    rw [if_neg h1]
    by_cases h2 : hasAny (pyLower s) nameWords = true
    · rw [if_pos h2]; decide
    rw [if_neg h2]
    by_cases h3 : hasAny (pyLower s) sadWords = true
    · rw [if_pos h3]; decide
    rw [if_neg h3]
    by_cases h4 : hasAny (pyLower s) anxietyWords = true
    · rw [if_pos h4]; decide
    rw [if_neg h4]
    by_cases h5 : hasAny (pyLower s) stressWords = true
    · rw [if_pos h5]; decide
    rw [if_neg h5]
    by_cases h6 : hasAny (pyLower s) goodWords = true
    · rw [if_pos h6]; decide
    rw [if_neg h6]
    by_cases h7 : hasAny (pyLower s) thanksWords = true
    · rw [if_pos h7]; decide
    rw [if_neg h7]
    by_cases h8 : hasAny (pyLower s) whoWords = true
    · rw [if_pos h8]; decide
    rw [if_neg h8]
    by_cases h9 : hasAny (pyLower s) sleepWords = true
    · rw [if_pos h9]; decide
    rw [if_neg h9]
    by_cases h10 : hasAny (pyLower s) lonelyWords = true
    · rw [if_pos h10]; decide
    rw [if_neg h10]
    by_cases h11 : hasAny (pyLower s) workWords = true
    · rw [if_pos h11]; decide
    rw [if_neg h11]
    by_cases h12 : hasAny (pyLower s) motivationWords = true
    · rw [if_pos h12]; decide
    rw [if_neg h12]
    by_cases h13 : hasAny (pyLower s) helpWords = true
    · rw [if_pos h13]; decide
    rw [if_neg h13]; decide
  · intro s h
    simp only [get_simple_response]
    rw [if_pos h]

/-- C9 witness: the universal parts evaluated at concrete inputs. -/
theorem C9_fallback_witness :
    hasAny (pyLower "привет") greetingWords = true
    ∧ get_simple_response "привет" = respGreeting
    ∧ get_simple_response "hello there" ≠ "" := by
  refine ⟨by decide, ?_, ?_⟩
  · exact C9_fallback_total.2.1 "привет" (by decide)
  · exact C9_fallback_total.1 "hello there"

/-- C3: submitting a mood value in 1..5 succeeds and appends exactly one
`mood_entries` row carrying the generated insight, while a value outside 1..5
is rejected with the range validation message and leaves the whole database
untouched. -/
theorem C3_api_mood (cfg : AIConfig) (db : DB) (v : Int) (note : String)
    (user_id now : Nat) :
    (1 ≤ v ∧ v ≤ 5 →
       (api_mood cfg db (some v) note user_id now).1.success = true
       ∧ (api_mood cfg db (some v) note user_id now).2.mood_entries
           = db.mood_entries
             ++ [⟨db.next_mood_id, user_id, v, some note,
                  some (analyze_mood_with_ai cfg db v note user_id now).text, now⟩])
    ∧ (¬(1 ≤ v ∧ v ≤ 5) →
       (api_mood cfg db (some v) note user_id now).1.success = false
       ∧ (api_mood cfg db (some v) note user_id now).1.message = some MOOD_RANGE_MSG
       ∧ (api_mood cfg db (some v) note user_id now).2 = db) := by
  have hdb := (get_ai_response_mood_frame cfg db (moodPrompt v note) user_id now).1
  constructor
  · intro hin
    have hcond : ¬(v = 0 ∨ v < 1 ∨ 5 < v) := by omega
    unfold api_mood
    simp only [hcond, if_false]
    unfold analyze_mood_with_ai
    simp [add_mood_entry, hdb]
  · intro hout
    have hcond : v = 0 ∨ v < 1 ∨ 5 < v := by omega
    unfold api_mood
    simp [hcond]

/-- C3 witness: mood 3 is accepted, mood 7 is rejected without a write. -/
theorem C3_api_mood_witness :
    (api_mood cfgOn dbAnn (some 3) "ok" 1 7).1.success = true
    ∧ (api_mood cfgOn dbAnn (some 7) "ok" 1 7).1.success = false
    ∧ (api_mood cfgOn dbAnn (some 7) "ok" 1 7).2 = dbAnn := by
  refine ⟨((C3_api_mood cfgOn dbAnn 3 "ok" 1 7).1 (by decide)).1, ?_, ?_⟩
  · exact ((C3_api_mood cfgOn dbAnn 7 "ok" 1 7).2 (by decide)).1
  · exact ((C3_api_mood cfgOn dbAnn 7 "ok" 1 7).2 (by decide)).2.2

/-- Rows removed by `clear_chat_history` can never resurface: filtering the
cleared table for the user yields nothing. -/
theorem filter_clear_nil (l : List ChatRow) (user_id : Nat) :
    (l.filter (fun m => m.user_id ≠ user_id)).filter (fun m => m.user_id = user_id) = [] := by
  induction l with
  | nil => rfl
  | cons a t ih =>
    by_cases h : a.user_id = user_id <;> simp [List.filter_cons, h, ih]

/-- C4: for every user present in the database, the clear-chat endpoint
deletes all of that user's chat rows and inserts exactly one fresh assistant
greeting, so the user's chat table afterwards is that single greeting row and
its length is 1. -/
theorem C4_clear_chat (db : DB) (user_id now : Nat) (u : UserRow)
    (h : get_user_by_id db user_id = some u) :
    ∃ db2, api_chat_clear db user_id now = some db2
      ∧ userMessages db2 user_id
          = [⟨db.next_chat_id, user_id, "assistant", clearGreeting u.username, now⟩]
      ∧ (userMessages db2 user_id).length = 1 := by
  refine ⟨add_chat_message (clear_chat_history db user_id) user_id "assistant"
      (clearGreeting u.username) now, ?_, ?_, ?_⟩
  · unfold api_chat_clear
    rw [h]
  · unfold userMessages add_chat_message clear_chat_history
    simp [List.filter_append, filter_clear_nil]
  · unfold userMessages add_chat_message clear_chat_history
    simp [List.filter_append, filter_clear_nil]

/-- C4 witness: clearing user 1 in a database with three chat rows (two of
them user 1's) leaves exactly the greeting row. -/
theorem C4_clear_chat_witness :
    ∃ db2, api_chat_clear dbChat 1 99 = some db2
      ∧ userMessages db2 1 = [⟨4, 1, "assistant", clearGreeting "Ann", 99⟩]
      ∧ (userMessages db2 1).length = 1 :=
  C4_clear_chat dbChat 1 99 annRow (by decide)

/-- C6: creating a user with a username that already exists returns `None`
and leaves the database — in particular the first user's row — unchanged, and
`create_user` preserves pairwise username uniqueness. -/
theorem C6_create_user (hash : String → String) (db : DB) (username password : String)
    (email : Option String) :
    ((∃ u ∈ db.users, u.username = username) →
       create_user hash db username password email = (none, db))
    ∧ (db.users.Pairwise (fun a b => a.username ≠ b.username) →
        (create_user hash db username password email).2.users.Pairwise
          (fun a b => a.username ≠ b.username)) := by
  constructor
  · rintro ⟨u, hu, heq⟩
    have hany : db.users.any (fun x => x.username = username) = true :=
      List.any_eq_true.mpr ⟨u, hu, by simp [heq]⟩
    unfold create_user
    rw [if_pos hany]
  · intro hpw
    by_cases hdup : db.users.any (fun x => x.username = username) = true
    · unfold create_user
      rw [if_pos hdup]
      exact hpw
    · unfold create_user
      rw [if_neg hdup]
      simp only
      rw [List.pairwise_append]
      refine ⟨hpw, List.pairwise_singleton _ _, ?_⟩
      intro a ha b hb
      have hb1 : b = ⟨db.next_user_id, username, hash password, email, "#64C4ED"⟩ :=
        List.mem_singleton.mp hb
      subst hb1
      intro hcontra
      exact hdup (List.any_eq_true.mpr ⟨a, ha, by simp [hcontra]⟩)

/-- C6 witness: registering "Ann" again fails and leaves the database intact,
and creating a fresh "Bob" keeps usernames pairwise distinct. -/
theorem C6_create_user_witness :
    create_user hashDemo dbAnn "Ann" "pw" none = (none, dbAnn)
    ∧ (create_user hashDemo dbAnn "Bob" "pw" none).2.users.Pairwise
        (fun a b => a.username ≠ b.username) := by
  refine ⟨(C6_create_user hashDemo dbAnn "Ann" "pw" none).1 ⟨annRow, by decide, rfl⟩,
    (C6_create_user hashDemo dbAnn "Bob" "pw" none).2 ?_⟩
  exact List.pairwise_singleton _ _

/-- C5: under the table CHECK constraint (every stored mood lies in 1..5),
the statistics report the entry count as total, average 0 when there are no
entries, the Python-rounded arithmetic mean of the stored moods otherwise,
and a distribution mapping each mood value to its occurrence count. -/
theorem C5_mood_stats (db : DB) (user_id : Nat)
    (h : ∀ m ∈ moodsOf db user_id, 1 ≤ m ∧ m ≤ 5) :
    (get_mood_stats db user_id).total = (moodsOf db user_id).length
    ∧ (moodsOf db user_id = [] → (get_mood_stats db user_id).average = 0)
    ∧ (moodsOf db user_id ≠ [] →
        (get_mood_stats db user_id).average
          = pyRound2 ((List.map (fun m : ℤ => (m : ℚ)) (moodsOf db user_id)).sum
              / (moodsOf db user_id).length))
    ∧ ∀ m : Int, (get_mood_stats db user_id).distribution m = (moodsOf db user_id).count m := by
  refine ⟨?_, ?_, ?_, fun m => rfl⟩
  · simp [get_mood_stats, moodsOf]
  · intro hnil
    simp [get_mood_stats, avg_mood, hnil]
  · intro hne
    have hpos : 0 < (List.map (fun m : ℤ => (m : ℚ)) (moodsOf db user_id)).sum := by
      apply List.sum_pos
      · intro x hx
        rw [List.mem_map] at hx
        obtain ⟨m, hm, hxm⟩ := hx
        rw [← hxm]
        have h0 : (0:ℤ) < m := by have h1 := (h m hm).1; omega
        exact_mod_cast h0
      · intro hcon
        rw [List.map_eq_nil_iff] at hcon
        exact hne hcon
    have hlenq : (0:ℚ) < ((moodsOf db user_id).length : ℚ) := by
      exact_mod_cast List.length_pos.mpr hne
    have hq : (0:ℚ) < (List.map (fun m : ℤ => (m : ℚ)) (moodsOf db user_id)).sum
        / ((moodsOf db user_id).length : ℚ) := div_pos hpos hlenq
    have havg : avg_mood db user_id
        = some ((List.map (fun m : ℤ => (m : ℚ)) (moodsOf db user_id)).sum
            / ((moodsOf db user_id).length : ℚ)) := by
      unfold avg_mood
      rw [if_neg (by simp [List.isEmpty_iff, hne])]
    have hshape : (get_mood_stats db user_id).average
        = match avg_mood db user_id with
          | none => 0
          | some a => if a = 0 then 0 else pyRound2 a := rfl
    rw [hshape]
    simp only [havg]
    rw [if_neg (ne_of_gt hq)]

/-- C5 witness: user 1 of `dbMoods` has moods 4 and 5, total 2, Python-rounded
mean average, and one entry of mood 4. -/
theorem C5_mood_stats_witness :
    (get_mood_stats dbMoods 1).total = 2
    ∧ (get_mood_stats dbMoods 1).average
        = pyRound2 ((List.map (fun m : ℤ => (m : ℚ)) (moodsOf dbMoods 1)).sum
            / (moodsOf dbMoods 1).length)
    ∧ (get_mood_stats dbMoods 1).distribution 4 = 1 := by
  have h := C5_mood_stats dbMoods 1 (by decide)
  exact ⟨h.1.trans (by decide), h.2.2.1 (by decide), (h.2.2.2 4).trans (by decide)⟩

/-- C8: history-fetch returns messages in non-decreasing creation-time order,
and when the user's messages have strictly increasing timestamps and fit in
the limit, recent-context-fetch (which reads newest-first and reverses)
yields exactly the same role/content sequence as history-fetch. -/
theorem C8_chat_ordering (db : DB) (user_id limit : Nat) :
    (get_chat_history db user_id limit).Pairwise chatAsc
    ∧ ((userMessages db user_id).Pairwise (fun a b => a.created_at < b.created_at) →
       (userMessages db user_id).length ≤ limit →
       get_recent_messages db user_id limit
         = (get_chat_history db user_id limit).map toRoleContent) := by
  constructor
  · exact List.Pairwise.sublist (List.take_sublist _ _)
      (List.sorted_insertionSort chatAsc (userMessages db user_id))
  · intro hs hlen
    have hasc : List.insertionSort chatAsc (userMessages db user_id)
        = userMessages db user_id :=
      List.Sorted.insertionSort_eq (hs.imp fun hab => Nat.le_of_lt hab)
    have hdesc : List.insertionSort chatDesc (userMessages db user_id)
        = (userMessages db user_id).reverse := by
      have hsorted := List.sorted_insertionSort chatDesc (userMessages db user_id)
      have hne : (List.insertionSort chatDesc (userMessages db user_id)).Pairwise
          (fun a b => a.created_at ≠ b.created_at) :=
        ((List.perm_insertionSort chatDesc (userMessages db user_id)).pairwise_iff
          (fun hxy => Ne.symm hxy)).mpr (hs.imp fun hab => Nat.ne_of_lt hab)
      have hstrict : (List.insertionSort chatDesc (userMessages db user_id)).Pairwise
          (fun a b => b.created_at < a.created_at) :=
        (hsorted.and hne).imp fun hab => Nat.lt_of_le_of_ne hab.1 (Ne.symm hab.2)
      have hrev : ((userMessages db user_id).reverse).Pairwise
          (fun a b => b.created_at < a.created_at) := List.pairwise_reverse.mpr hs
      exact @List.eq_of_perm_of_sorted ChatRow (fun a b => b.created_at < a.created_at)
        ⟨fun a b h1 h2 => absurd (Nat.lt_trans h1 h2) (Nat.lt_irrefl _)⟩ _ _
        ((List.perm_insertionSort chatDesc _).trans (List.reverse_perm _).symm)
        hstrict hrev
    unfold get_recent_messages get_chat_history
    rw [hasc, hdesc, List.take_of_length_le hlen,
      List.take_of_length_le (by rw [List.length_reverse]; exact hlen),
      List.reverse_reverse]

/-- C8 witness: in `dbChat` user 1's two messages (timestamps 10 and 12) give
the same role/content sequence through both fetches, and the history is
sorted. -/
theorem C8_chat_ordering_witness :
    get_recent_messages dbChat 1 50 = (get_chat_history dbChat 1 50).map toRoleContent
    ∧ (get_chat_history dbChat 1 50).Pairwise chatAsc := by
  have h := C8_chat_ordering dbChat 1 50
  exact ⟨h.2 (by decide) (by decide), h.1⟩

/-- Folding the UPDATE assignments over a user row leaves the email column
unchanged when no assignment targets the email field. -/
theorem foldl_applyField_email (hash : String → String) (ups : List (String × PyVal)) :
    ∀ u : UserRow, (∀ p ∈ ups, p.1 ≠ "email") →
      (ups.foldl (applyField hash) u).email = u.email := by
  induction ups with
  | nil => intro u _; rfl
  | cons p t ih =>
    intro u hp
    rw [List.foldl_cons,
      ih (applyField hash u p) (fun q hq => hp q (List.mem_cons_of_mem p hq))]
    have hne : p.1 ≠ "email" := hp p (List.mem_cons_self p t)
    by_cases h1 : p.1 = "username"
    · simp [applyField, h1]
    by_cases h2 : p.1 = "avatar_color"
    · simp [applyField, h1, h2, hne]
    simp [applyField, h1, h2, hne]

/-- C10: `update_user` drops every kwarg that is not whitelisted or whose
value is falsy — if every kwarg is dropped it performs no database write at
all and returns the state unchanged — and an email kwarg whose value is falsy
(such as the empty string) can never change the stored email column. -/
theorem C10_update_user (hash : String → String) (db : DB) (user_id : Nat)
    (kwargs : List (String × PyVal)) :
    ((∀ p ∈ kwargs, allowed_fields.contains p.1 = false ∨ truthy p.2 = false) →
       update_user hash db user_id kwargs = (db, false))
    ∧ ((∀ p ∈ kwargs, p.1 = "email" → truthy p.2 = false) →
        (update_user hash db user_id kwargs).1.users.map (fun u => u.email)
          = db.users.map (fun u => u.email)) := by
  constructor
  · intro hall
    have hfil : kwargs.filter (fun p => allowed_fields.contains p.1 && truthy p.2) = [] := by
      rw [List.filter_eq_nil_iff]
      intro p hp hc
      rw [Bool.and_eq_true] at hc
      rcases hall p hp with h | h
      · rw [h] at hc
        simp at hc
      · rw [h] at hc
        simp at hc
    simp only [update_user]
    rw [hfil]
    rfl
  · intro hemail
    simp only [update_user]
    by_cases hfil :
        (kwargs.filter (fun p => allowed_fields.contains p.1 && truthy p.2)).isEmpty = true
    · rw [if_pos hfil]
    · rw [if_neg hfil]
      simp only [List.map_map]
      apply List.map_congr_left
      intro u hu
      simp only [Function.comp]
      by_cases hid : u.id = user_id
      · rw [if_pos hid]
        apply foldl_applyField_email
        intro p hp hpe
        have hmem := List.mem_filter.mp hp
        have htr : truthy p.2 = true := by
          have hand := hmem.2
          simp at hand
          exact hand.2
        rw [hemail p hmem.1 hpe] at htr
        exact absurd htr (by decide)
      · rw [if_neg hid]

/-- C10 witness: dropping an empty-string email, a non-whitelisted field and a
None avatar performs no write, and an empty-string email mixed with a genuine
username update still cannot clear the stored email. -/
theorem C10_update_user_witness :
    update_user hashDemo dbAnn 1
        [("email", PyVal.pyStr ""), ("hacker", PyVal.pyStr "x"),
         ("avatar_color", PyVal.pyNone)] = (dbAnn, false)
    ∧ (update_user hashDemo dbAnn 1
        [("email", PyVal.pyStr ""), ("username", PyVal.pyStr "Bob")]).1.users.map
          (fun u => u.email) = dbAnn.users.map (fun u => u.email) := by
  exact ⟨(C10_update_user hashDemo dbAnn 1 _).1 (by decide),
    (C10_update_user hashDemo dbAnn 1 _).2 (by decide)⟩
